import Mathlib

/-!
Verification development for the bildstod repository (a GTK picture-schedule
application). The definitions below are shallow embeddings, translated from
the Python sources in src/bildstod: pure data manipulation becomes Lean
functions, file contents become explicit values, and id generation (Python
uuid.uuid4) becomes an explicit fresh-id argument or generator function.
JSON text encoding and decoding (json.dump / json.load) is modelled as the
identity on structured JSON values, which is faithful for the dictionaries
of strings, integers and booleans that this code persists.
-/

/-- JSON values as produced and consumed by json.dump / json.load in
schedule.py and library.py. Numbers are restricted to integers, which is
what this code stores (durations in minutes). -/
inductive Json where
  | str (s : String)
  | num (n : Int)
  | bool (b : Bool)
  | arr (xs : List Json)
  | obj (fields : List (String × Json))

/-- Lookup of a key in a Python dict, modelled on an association list
(Python dicts preserve insertion order and these dicts have distinct keys). -/
def dictGet (d : List (String × Json)) (k : String) : Option Json :=
  (d.find? (fun p => p.1 == k)).map (fun p => p.2)

/-- Python d.get(key, default) where the caller stores the result in a
string-typed field. On outputs of to_dict the value at the key is always a
string, so the type-mismatch fallback branch is never exercised in the
round-trip theorems. -/
def getStr (d : List (String × Json)) (k : String) (dflt : String) : String :=
  match dictGet d k with
  | some (Json.str s) => s
  | _ => dflt

/-- Python d.get(key, default) for an integer-valued field. -/
def getInt (d : List (String × Json)) (k : String) (dflt : Int) : Int :=
  match dictGet d k with
  | some (Json.num n) => n
  | _ => dflt

/-- Python d.get(key, default) for a boolean-valued field. -/
def getBool (d : List (String × Json)) (k : String) (dflt : Bool) : Bool :=
  match dictGet d k with
  | some (Json.bool b) => b
  | _ => dflt

/-- Python d.get(key, default) for a list-valued field. -/
def getArr (d : List (String × Json)) (k : String) (dflt : List Json) : List Json :=
  match dictGet d k with
  | some (Json.arr xs) => xs
  | _ => dflt

/-- ScheduleItem from schedule.py: one activity in a daily schedule. -/
structure ScheduleItem where
  id : String
  library_id : String
  label : String
  image_filename : String
  time_str : String
  duration : Int
  done : Bool
  category : String
deriving DecidableEq

/-- ScheduleItem.__init__ with all keyword arguments left at their defaults;
the uuid.uuid4() generated id is passed in explicitly as uid. -/
def ScheduleItem.init (uid : String) : ScheduleItem :=
  { id := uid
    library_id := ""
    label := ""
    image_filename := ""
    time_str := "08:00"
    duration := 30
    done := false
    category := "other" }

/-- ScheduleItem.to_dict from schedule.py. -/
def ScheduleItem.to_dict (i : ScheduleItem) : List (String × Json) :=
  [ ("id", Json.str i.id)
  , ("library_id", Json.str i.library_id)
  , ("label", Json.str i.label)
  , ("image_filename", Json.str i.image_filename)
  , ("time_str", Json.str i.time_str)
  , ("duration", Json.num i.duration)
  , ("done", Json.bool i.done)
  , ("category", Json.str i.category) ]

/-- ScheduleItem.from_dict from schedule.py. The cls() call draws a fresh
uuid for the id default; that uuid is the fallbackUid argument here (it is
only used when the dict has no "id" key). -/
def ScheduleItem.from_dict (fallbackUid : String) (d : List (String × Json)) : ScheduleItem :=
  { id := getStr d "id" fallbackUid
    library_id := getStr d "library_id" ""
    label := getStr d "label" ""
    image_filename := getStr d "image_filename" ""
    time_str := getStr d "time_str" "08:00"
    duration := getInt d "duration" 30
    done := getBool d "done" false
    category := getStr d "category" "other" }

/-- Schedule from schedule.py: name, ISO date string and ordered item list. -/
structure Schedule where
  name : String
  date : String
  items : List ScheduleItem
deriving DecidableEq

/-- Schedule.__init__: name falls back to the localized "New Schedule"
placeholder when empty (Python `name or _("New Schedule")`), and the date
falls back to today (passed explicitly since the embedding has no clock). -/
def Schedule.init (name : String) (schedule_date : Option String) (today : String) : Schedule :=
  { name := if name = "" then "New Schedule" else name
    date := match schedule_date with
            | some d => if d = "" then today else d
            | none => today
    items := [] }

/-- Schedule.to_dict from schedule.py. -/
def Schedule.to_dict (s : Schedule) : List (String × Json) :=
  [ ("name", Json.str s.name)
  , ("date", Json.str s.date)
  , ("items", Json.arr (s.items.map (fun i => Json.obj i.to_dict))) ]

/-- List comprehension in Schedule.from_dict: each ScheduleItem.from_dict
call draws its own fresh uuid default, supplied by gen indexed by position.
An element that is not a JSON object would make Python raise (dict access
on a non-dict); such elements never arise from Schedule.to_dict, and are
mapped through an empty field list here. -/
def from_dict_items (gen : Nat → String) : Nat → List Json → List ScheduleItem
  | _, [] => []
  | n, j :: rest =>
      (match j with
       | Json.obj fields => ScheduleItem.from_dict (gen n) fields
       | _ => ScheduleItem.from_dict (gen n) []) :: from_dict_items gen (n + 1) rest

/-- Schedule.from_dict from schedule.py. -/
def Schedule.from_dict (gen : Nat → String) (today : String) (d : List (String × Json)) : Schedule :=
  { name := getStr d "name" "New Schedule"
    date := getStr d "date" today
    items := from_dict_items gen 0 (getArr d "items" []) }

/-- Schedule.save from schedule.py: json.dump(self.to_dict(), f). The file
content is modelled as the structured JSON value written. The filename
derivation does not affect the content and is not modelled. -/
def Schedule.save (s : Schedule) : Json :=
  Json.obj s.to_dict

/-- Schedule.load from schedule.py: cls.from_dict(json.load(f)). A file
whose top-level value is not a JSON object would make Python raise inside
from_dict; Schedule.save never produces one, and it is mapped through an
empty field list here. -/
def Schedule.load (gen : Nat → String) (today : String) (j : Json) : Schedule :=
  match j with
  | Json.obj d => Schedule.from_dict gen today d
  | _ => Schedule.from_dict gen today []

/-- Loop body of Schedule.get_current_activity: return the first item whose
done flag is not set. -/
def current_aux : List ScheduleItem → Option ScheduleItem
  | [] => none
  | i :: rest => if i.done then current_aux rest else some i

/-- Schedule.get_current_activity from schedule.py. -/
def Schedule.get_current_activity (s : Schedule) : Option ScheduleItem :=
  current_aux s.items

/-- Loop of Schedule.get_next_activity: found starts False; each iteration
first returns the item when found is set and the item is not done, then
sets found when the item id matches the id of current. -/
def next_aux (cid : String) : List ScheduleItem → Bool → Option ScheduleItem
  | [], _ => none
  | i :: rest, found =>
      if found && !i.done then some i
      else next_aux cid rest (found || (i.id == cid))

/-- Schedule.get_next_activity from schedule.py. -/
def Schedule.get_next_activity (s : Schedule) (current : ScheduleItem) : Option ScheduleItem :=
  next_aux current.id s.items false

/-! Picture library, from library.py. -/

/-- Library item dict as created by PictureLibrary.add_image and read by
ScheduleItem.from_library_item. The keys id, filename and label are always
present where the code indexes them directly; category and duration are
read with dict.get and so are modelled as optional. -/
structure LibItemDict where
  id : String
  filename : String
  label : String
  category : Option String
  duration : Option Int
deriving DecidableEq

/-- PictureLibrary state: the in-memory item list and the content of the
persisted library.json file. -/
structure PictureLibrary where
  items : List LibItemDict
  saved : List LibItemDict
deriving DecidableEq

/-- PictureLibrary.save: overwrite library.json with the in-memory list. -/
def PictureLibrary.save (lib : PictureLibrary) : PictureLibrary :=
  { lib with saved := lib.items }

/-- Split of a character list at every occurrence of a separator character. -/
def split_on_char (c : Char) : List Char → List (List Char)
  | [] => [[]]
  | x :: xs =>
      match split_on_char c xs with
      | [] => [[x]]
      | g :: gs => if x = c then [] :: g :: gs else (x :: g) :: gs

/-- Final path component, as pathlib computes the name of a POSIX path:
the last nonempty component of the split on the separator. -/
def path_name (s : String) : String :=
  String.mk (((split_on_char '/' s.data).filter (fun g => g ≠ [])).getLastD [])

/-- Index of the last occurrence of a character in a list, if any. -/
def last_idx_of (c : Char) : List Char → Option Nat
  | [] => none
  | x :: xs =>
      match last_idx_of c xs with
      | some i => some (i + 1)
      | none => if x = c then some 0 else none

/-- Extension of a file name as pathlib.PurePath.suffix computes it: the
substring from the last dot, provided that dot is neither the first nor
the last character of the name; otherwise the empty string. -/
def py_suffix (name : String) : String :=
  let cs := name.toList
  match last_idx_of '.' cs with
  | some i => if 0 < i ∧ i < cs.length - 1 then String.mk (cs.drop i) else ""
  | none => ""

/-- Python str.lower restricted to ASCII, which covers the extensions and
search terms this code compares. -/
def py_lower (s : String) : String :=
  String.mk (s.data.map Char.toLower)

/-- Python str.strip with no argument: remove whitespace from both ends. -/
def py_strip (s : String) : String :=
  String.mk (((s.data.dropWhile Char.isWhitespace).reverse.dropWhile Char.isWhitespace).reverse)

/-- Python str.startswith: the second string is a prefix of the first. -/
def py_startswith (s t : String) : Bool :=
  t.data.isPrefixOf s.data

/-- Extension allow-list checked by PictureLibrary.add_image. -/
def allowed_exts : List String :=
  [".png", ".jpg", ".jpeg", ".svg"]

/-- PictureLibrary.add_image from library.py. The uuid.uuid4() generated id
is the uid argument. The copy of the image file into the images directory
is a filesystem effect outside the library state modelled here; it happens
only on the accepted branch, after the extension check. -/
def PictureLibrary.add_image (lib : PictureLibrary) (source_path : String)
    (label : String) (category : String) (duration : Int) (uid : String) :
    Option LibItemDict × PictureLibrary :=
  let ext := py_lower (py_suffix (path_name source_path))
  if ext ∉ allowed_exts then
    (none, lib)
  else
    let item : LibItemDict :=
      { id := uid
        filename := uid ++ ext
        label := label
        category := some category
        duration := some duration }
    (some item, PictureLibrary.save { lib with items := lib.items ++ [item] })

/-- Default of the category keyword argument of PictureLibrary.add_image. -/
def add_image_default_category : String := "other"

/-- Default of the duration keyword argument of PictureLibrary.add_image. -/
def add_image_default_duration : Int := 0

/-- Exception classes that can escape the open + json.load sequence in
PictureLibrary.load. In Python, json.JSONDecodeError and UnicodeDecodeError
are distinct subclasses of ValueError, and IOError is OSError; the except
clause in load names only json.JSONDecodeError and IOError. -/
inductive PyExc where
  | jsonDecodeError
  | ioError
  | unicodeDecodeError
deriving DecidableEq

/-- PictureLibrary.load from library.py. The file system is abstracted as
fs: none means self.path.exists() is false; some (Except.ok j) means
json.load returned the value j; some (Except.error e) means the read or
parse raised e (a text file whose bytes are not valid UTF-8 makes the
json.load call raise UnicodeDecodeError). The except clause catches
json.JSONDecodeError and IOError and sets the items to the empty list;
any other exception propagates to the caller. -/
def library_load (fs : Option (Except PyExc Json)) : Except PyExc Json :=
  match fs with
  | none => Except.ok (Json.arr [])
  | some (Except.ok j) => Except.ok j
  | some (Except.error PyExc.jsonDecodeError) => Except.ok (Json.arr [])
  | some (Except.error PyExc.ioError) => Except.ok (Json.arr [])
  | some (Except.error e) => Except.error e

/-- ScheduleItem.from_library_item from schedule.py. The uuid generated by
cls() is the uid argument. The duration line is
lib_item.get("duration", 30) or 30: a missing key gives 30, and a falsy
stored value (the integer 0) also gives 30. -/
def ScheduleItem.from_library_item (uid : String) (lib_item : LibItemDict) : ScheduleItem :=
  { ScheduleItem.init uid with
    library_id := lib_item.id
    label := lib_item.label
    image_filename := lib_item.filename
    duration := match lib_item.duration with
                | none => 30
                | some v => if v = 0 then 30 else v
    category := lib_item.category.getD "other" }

/-! Countdown timer, from timer.py. -/

/-- TimerWidget countdown state: the fields total_seconds,
remaining_seconds and running of the widget, plus a count of how many
times the on_finished callback has been invoked. -/
structure TimerState where
  total_seconds : Int
  remaining_seconds : Int
  running : Bool
  finished_count : Nat
deriving DecidableEq

/-- TimerWidget.start from timer.py: total and remaining are set to
int(minutes * 60) and the timer starts running. A previously scheduled
tick source is removed, so the session ticks once per second from here. -/
def timer_start (minutes : Int) : TimerState :=
  { total_seconds := minutes * 60
    remaining_seconds := minutes * 60
    running := true
    finished_count := 0 }

/-- TimerWidget._tick from timer.py: a non-running timer returns without
touching state; otherwise remaining_seconds is decremented, and when it
has reached zero or below it is clamped to zero, running is cleared and
the on_finished callback fires (counted in finished_count). -/
def timer_tick (s : TimerState) : TimerState :=
  if s.running then
    let r := s.remaining_seconds - 1
    if r ≤ 0 then
      { s with remaining_seconds := 0
               running := false
               finished_count := s.finished_count + 1 }
    else
      { s with remaining_seconds := r }
  else s

/-! Templates, from templates.py. -/

/-- Activity descriptor inside a template. In the built-in templates every
field is present; category and arasaac_id are read with dict.get in
template_to_schedule and so are modelled as optional. -/
structure TemplateItem where
  label : String
  time_str : String
  duration : Int
  category : Option String
  arasaac_id : Option Int
deriving DecidableEq

/-- Template: a name and a list of activity descriptors. -/
structure Template where
  name : String
  items : List TemplateItem
deriving DecidableEq

/-- School Day entry of get_builtin_templates in templates.py. -/
def school_day_template : Template :=
  { name := "School Day"
    items :=
      [ ⟨"Wake up", "06:30", 15, some "morning", some 8988⟩
      , ⟨"Breakfast", "06:45", 20, some "meals", some 4625⟩
      , ⟨"Get dressed", "07:05", 15, some "morning", some 2781⟩
      , ⟨"Brush teeth", "07:20", 10, some "hygiene", some 2326⟩
      , ⟨"Go to school", "07:30", 30, some "transport", some 3082⟩
      , ⟨"School", "08:00", 360, some "school", some 3082⟩
      , ⟨"Lunch", "11:30", 30, some "meals", some 4609⟩
      , ⟨"Come home", "14:00", 30, some "transport", some 6964⟩
      , ⟨"Snack", "14:30", 15, some "meals", some 4694⟩
      , ⟨"Play", "14:45", 60, some "play", some 11653⟩
      , ⟨"Dinner", "17:30", 30, some "meals", some 4592⟩
      , ⟨"Evening routine", "19:00", 30, some "evening", some 6942⟩
      , ⟨"Brush teeth", "19:30", 10, some "hygiene", some 2326⟩
      , ⟨"Bedtime", "19:45", 15, some "evening", some 6027⟩ ] }

/-- Weekend entry of get_builtin_templates in templates.py. -/
def weekend_template : Template :=
  { name := "Weekend"
    items :=
      [ ⟨"Wake up", "08:00", 15, some "morning", some 8988⟩
      , ⟨"Breakfast", "08:15", 30, some "meals", some 4625⟩
      , ⟨"Get dressed", "08:45", 15, some "morning", some 2781⟩
      , ⟨"Play", "09:00", 120, some "play", some 11653⟩
      , ⟨"Lunch", "12:00", 30, some "meals", some 4609⟩
      , ⟨"Rest", "12:30", 60, some "rest", some 3299⟩
      , ⟨"Play", "14:00", 120, some "play", some 11653⟩
      , ⟨"Snack", "16:00", 15, some "meals", some 4694⟩
      , ⟨"Dinner", "17:30", 30, some "meals", some 4592⟩
      , ⟨"Evening routine", "19:00", 30, some "evening", some 6942⟩
      , ⟨"Bedtime", "20:00", 15, some "evening", some 6027⟩ ] }

/-- Holiday entry of get_builtin_templates in templates.py. -/
def holiday_template : Template :=
  { name := "Holiday"
    items :=
      [ ⟨"Wake up", "08:30", 15, some "morning", some 8988⟩
      , ⟨"Breakfast", "08:45", 30, some "meals", some 4625⟩
      , ⟨"Get dressed", "09:15", 15, some "morning", some 2781⟩
      , ⟨"Play", "09:30", 120, some "play", some 11653⟩
      , ⟨"Lunch", "12:00", 30, some "meals", some 4609⟩
      , ⟨"Rest", "12:30", 60, some "rest", some 3299⟩
      , ⟨"Play", "14:00", 180, some "play", some 11653⟩
      , ⟨"Dinner", "17:30", 30, some "meals", some 4592⟩
      , ⟨"Evening routine", "19:30", 30, some "evening", some 6942⟩
      , ⟨"Bedtime", "20:30", 15, some "evening", some 6027⟩ ] }

/-- get_builtin_templates from templates.py. -/
def get_builtin_templates : List Template :=
  [school_day_template, weekend_template, holiday_template]

/-- Body of the loop in template_to_schedule building one ScheduleItem
from one descriptor. When the descriptor carries a truthy arasaac_id and
the pictogram is already cached under the images directory (abstracted by
the cached predicate), the file name is assigned synchronously; otherwise
the item keeps its empty image_filename and is queued for asynchronous
resolution, which is outside this state. -/
def tts_item (gen_id : String) (cached : Int → Bool) (td : TemplateItem) : ScheduleItem :=
  let si := { ScheduleItem.init gen_id with
              label := td.label
              time_str := td.time_str
              duration := td.duration
              category := td.category.getD "other" }
  { si with image_filename :=
      match td.arasaac_id with
      | some a => if (a != 0) && cached a then
                    "arasaac_" ++ toString a ++ ".png"
                  else si.image_filename
      | none => si.image_filename }

/-- Loop of template_to_schedule over the descriptors, with gen supplying
the uuid for the descriptor at each position. -/
def tts_items (gen : Nat → String) (cached : Int → Bool) : Nat → List TemplateItem → List ScheduleItem
  | _, [] => []
  | n, td :: rest => tts_item (gen n) cached td :: tts_items gen cached (n + 1) rest

/-- template_to_schedule from templates.py: a Schedule named after the
template, whose items are built from the descriptors in order. -/
def template_to_schedule (gen : Nat → String) (cached : Int → Bool) (today : String)
    (t : Template) : Schedule :=
  { Schedule.init t.name none today with items := tts_items gen cached 0 t.items }

/-! Swedish pictogram lookup, from arasaac.py. -/

/-- Search result dict {_id, keywords: [{keyword, locale}]} returned by
search_pictograms_sv; the keywords list always holds the single searched
keyword with locale sv. -/
structure PictoResult where
  picto_id : Int
  keyword : String
  locale : String
deriving DecidableEq

/-- Key lookup in the bundled Swedish term to id-list mapping, modelled as
an association list in insertion order (Python dict semantics with
distinct keys). -/
def lookup_assoc (lookup : List (String × List Int)) (k : String) : Option (List Int) :=
  (lookup.find? (fun p => p.1 == k)).map (fun p => p.2)

/-- Fallback loop of search_pictograms_sv: walk the mapping in order,
extend the accumulator with the ids of every term that starts with the
searched term, and break as soon as 60 or more ids are collected. -/
def collect_prefix_ids (term : String) : List (String × List Int) → List Int → List Int
  | [], acc => acc
  | (k, v) :: rest, acc =>
      let acc2 := if py_startswith k term then acc ++ v else acc
      if 60 ≤ acc2.length then acc2 else collect_prefix_ids term rest acc2

/-- search_pictograms_sv from arasaac.py: normalize the keyword with
lower + strip, take the exact entry when the normalized term is a key,
otherwise collect ids by the term-starts-with fallback, and return at
most 60 results. -/
def search_pictograms_sv (lookup : List (String × List Int)) (keyword : String) :
    List PictoResult :=
  let term := py_strip (py_lower keyword)
  let ids :=
    match lookup_assoc lookup term with
    | some v => v
    | none => collect_prefix_ids term lookup []
  (ids.take 60).map (fun pid => { picto_id := pid, keyword := keyword, locale := "sv" })

/-! Theorems. -/

lemma current_aux_eq_none_iff (l : List ScheduleItem) :
    current_aux l = none ↔ ∀ i ∈ l, i.done = true := by
  induction l with
  | nil => simp [current_aux]
  | cons i rest ih =>
      by_cases h : i.done = true
      · simp [current_aux, h, ih]
      · simp [current_aux, h]

lemma current_aux_first (l : List ScheduleItem) (j : Nat) (hj : j < l.length)
    (hnd : (l.get ⟨j, hj⟩).done = false)
    (hmin : ∀ k : Nat, ∀ hk : k < l.length, k < j → (l.get ⟨k, hk⟩).done = true) :
    current_aux l = some (l.get ⟨j, hj⟩) := by
  induction l generalizing j with
  | nil => exact absurd hj (Nat.not_lt_zero j)
  | cons i rest ih =>
      cases j with
      | zero =>
          simp only [List.get] at hnd
          simp [current_aux, hnd]
      | succ j =>
          have h0 : i.done = true :=
            hmin 0 (Nat.succ_pos _) (Nat.succ_pos j)
          simp only [current_aux, h0, if_true, List.length_cons] at *
          exact ih j (Nat.lt_of_succ_lt_succ hj) hnd
            (fun k hk hkj => hmin (k + 1) (Nat.succ_lt_succ hk) (Nat.succ_lt_succ hkj))

/-- C1: get_current_activity returns the item at the smallest list index
among items with done = false, and returns none exactly when the schedule
is empty or every item is done. -/
theorem get_current_activity_first_pending (s : Schedule) :
    (s.get_current_activity = none ↔ s.items = [] ∨ ∀ i ∈ s.items, i.done = true)
    ∧ ∀ j : Nat, ∀ hj : j < s.items.length, (s.items.get ⟨j, hj⟩).done = false →
        (∀ k : Nat, ∀ hk : k < s.items.length, k < j → (s.items.get ⟨k, hk⟩).done = true) →
        s.get_current_activity = some (s.items.get ⟨j, hj⟩) := by
  constructor
  · rw [Schedule.get_current_activity, current_aux_eq_none_iff]
    constructor
    · exact fun h => Or.inr h
    · rintro (h | h)
      · simp [h]
      · exact h
  · exact fun j hj hnd hmin => current_aux_first s.items j hj hnd hmin

/-- Scenario items from the spec: A and B pending, C done. -/
def itemA : ScheduleItem := { ScheduleItem.init "A" with label := "A" }

def itemB : ScheduleItem := { ScheduleItem.init "B" with label := "B" }

def itemC : ScheduleItem := { ScheduleItem.init "C" with label := "C", done := true }

/-- Item with an id that does not occur in the scenario schedule. -/
def itemX : ScheduleItem := { ScheduleItem.init "X" with label := "X" }

/-- Scenario schedule [A(done=false), B(done=false), C(done=true)]. -/
def sched0 : Schedule := { name := "s", date := "d", items := [itemA, itemB, itemC] }

theorem get_current_activity_first_pending_witness :
    sched0.get_current_activity = some itemA := by
  have h := (get_current_activity_first_pending sched0).2 0 (by decide) (by decide)
    (by decide)
  exact h

lemma next_aux_true (cid : String) (l : List ScheduleItem) :
    next_aux cid l true = l.find? (fun i => !i.done) := by
  induction l with
  | nil => rfl
  | cons i rest ih =>
      by_cases h : i.done = true
      · simp [next_aux, List.find?, h, ih]
      · simp [next_aux, List.find?, h]

lemma next_aux_no_match (cid : String) (l : List ScheduleItem)
    (h : ∀ i ∈ l, i.id ≠ cid) :
    next_aux cid l false = none := by
  induction l with
  | nil => rfl
  | cons i rest ih =>
      have h1 : (i.id == cid) = false := by
        simp [h i (List.mem_cons_self i rest)]
      simp only [next_aux, h1, Bool.false_and, Bool.false_or, if_neg Bool.false_ne_true]
      exact ih (fun x hx => h x (List.mem_cons_of_mem _ hx))

lemma next_aux_first_match (cid : String) (l : List ScheduleItem) (j : Nat)
    (hj : j < l.length) (heq : (l.get ⟨j, hj⟩).id = cid)
    (hmin : ∀ k : Nat, ∀ hk : k < l.length, k < j → (l.get ⟨k, hk⟩).id ≠ cid) :
    next_aux cid l false = (l.drop (j + 1)).find? (fun i => !i.done) := by
  induction l generalizing j with
  | nil => exact absurd hj (Nat.not_lt_zero j)
  | cons i rest ih =>
      cases j with
      | zero =>
          simp only [List.get] at heq
          have h1 : (i.id == cid) = true := by simp [heq]
          simp only [next_aux, Bool.false_and, Bool.false_or, if_neg Bool.false_ne_true, h1,
            List.drop_succ_cons, List.drop_zero]
          exact next_aux_true cid rest
      | succ j =>
          have h0 : i.id ≠ cid :=
            hmin 0 (Nat.succ_pos _) (Nat.succ_pos j)
          have h1 : (i.id == cid) = false := by simp [h0]
          simp only [next_aux, h1, Bool.false_and, Bool.false_or, if_neg Bool.false_ne_true,
            List.drop_succ_cons, List.length_cons] at *
          exact ih j (Nat.lt_of_succ_lt_succ hj) heq
            (fun k hk hkj => hmin (k + 1) (Nat.succ_lt_succ hk) (Nat.succ_lt_succ hkj))

/-- C3: get_next_activity returns the first pending item strictly after the
first position whose item id equals the id of current, and returns none
when no item of the schedule carries that id (the same result as when no
pending item follows). -/
theorem get_next_activity_scan (s : Schedule) (current : ScheduleItem) :
    ((∀ i ∈ s.items, i.id ≠ current.id) → s.get_next_activity current = none)
    ∧ ∀ j : Nat, ∀ hj : j < s.items.length, (s.items.get ⟨j, hj⟩).id = current.id →
        (∀ k : Nat, ∀ hk : k < s.items.length, k < j → (s.items.get ⟨k, hk⟩).id ≠ current.id) →
        s.get_next_activity current = (s.items.drop (j + 1)).find? (fun i => !i.done) := by
  constructor
  · exact fun h => next_aux_no_match current.id s.items h
  · exact fun j hj heq hmin => next_aux_first_match current.id s.items j hj heq hmin

theorem get_next_activity_scan_witness :
    (sched0.get_next_activity itemB = (sched0.items.drop 2).find? (fun i => !i.done)
      ∧ sched0.get_next_activity itemB = none)
    ∧ sched0.get_next_activity itemX = none := by
  refine ⟨⟨?_, ?_⟩, ?_⟩
  · exact (get_next_activity_scan sched0 itemB).2 1 (by decide) (by decide) (by decide)
  · have h := (get_next_activity_scan sched0 itemB).2 1 (by decide) (by decide) (by decide)
    simpa using h
  · exact (get_next_activity_scan sched0 itemX).1 (by decide)

lemma item_round_trip (fb : String) (i : ScheduleItem) :
    ScheduleItem.from_dict fb i.to_dict = i := by
  cases i
  rfl

lemma from_dict_items_map (gen : Nat → String) (n : Nat) (l : List ScheduleItem) :
    from_dict_items gen n (l.map (fun i => Json.obj i.to_dict)) = l := by
  induction l generalizing n with
  | nil => rfl
  | cons i rest ih =>
      simp only [List.map_cons, from_dict_items]
      rw [item_round_trip, ih]

/-- C2: saving a Schedule and loading the saved file reproduces the name,
the date and every field of every item exactly, for every schedule
including the empty one. -/
theorem schedule_save_load_round_trip (gen : Nat → String) (today : String) (s : Schedule) :
    Schedule.load gen today s.save = s := by
  obtain ⟨name, date, items⟩ := s
  exact congrArg (Schedule.mk name date) (from_dict_items_map gen 0 items)

lemma timer_run (m : Nat) :
    ∀ k : Nat, k < m * 60 →
      timer_tick^[k] (timer_start m) =
        { total_seconds := (m : Int) * 60, remaining_seconds := (m : Int) * 60 - k,
          running := true, finished_count := 0 } := by
  intro k
  induction k with
  | zero =>
      intro _
      simp [timer_start]
  | succ k ih =>
      intro h
      rw [Function.iterate_succ_apply', ih (Nat.lt_of_succ_lt h)]
      have hgt : ¬((m : Int) * 60 - k - 1 ≤ 0) := by omega
      simp only [timer_tick, if_true, hgt, if_false]
      simp only [TimerState.mk.injEq, true_and, and_true]
      push_cast
      ring

lemma timer_finish (m : Nat) (hm : 0 < m) :
    timer_tick^[m * 60] (timer_start m) =
      { total_seconds := (m : Int) * 60, remaining_seconds := 0,
        running := false, finished_count := 1 } := by
  have h1 : m * 60 = (m * 60 - 1) + 1 := by omega
  rw [h1, Function.iterate_succ_apply', timer_run m (m * 60 - 1) (by omega)]
  have hle : (m : Int) * 60 - (m * 60 - 1 : Nat) - 1 ≤ 0 := by omega
  simp only [timer_tick, if_true, hle, if_true]

lemma timer_stopped_fix (s : TimerState) (h : s.running = false) : timer_tick s = s := by
  simp [timer_tick, h]

/-- C4: for minutes strictly positive, after k ticks of a fresh session the
remaining time is exactly the total minus k seconds (one-second decrements
per tick), on the tick where the remaining time reaches zero the timer is
stopped with remaining zero and the finished callback has fired exactly
once, and any further ticks leave that state, and that count, unchanged. -/
theorem timer_countdown (m : Nat) (hm : 0 < m) :
    (∀ k : Nat, k < m * 60 →
        timer_tick^[k] (timer_start m) =
          { total_seconds := (m : Int) * 60, remaining_seconds := (m : Int) * 60 - k,
            running := true, finished_count := 0 })
    ∧ (∀ k : Nat, k < m * 60 →
        (timer_tick^[k + 1] (timer_start m)).remaining_seconds =
          (timer_tick^[k] (timer_start m)).remaining_seconds - 1)
    ∧ ∀ j : Nat, timer_tick^[m * 60 + j] (timer_start m) =
        { total_seconds := (m : Int) * 60, remaining_seconds := 0,
          running := false, finished_count := 1 } := by
  refine ⟨timer_run m, fun k hk => ?_, fun j => ?_⟩
  · by_cases h2 : k + 1 < m * 60
    · rw [timer_run m (k + 1) h2, timer_run m k hk]
      push_cast
      ring
    · have h3 : k + 1 = m * 60 := by omega
      rw [h3, timer_finish m hm, timer_run m k hk]
      simp only
      omega
  · induction j with
    | zero => exact timer_finish m hm
    | succ j ih =>
        rw [← Nat.add_assoc, Function.iterate_succ_apply', ih]
        exact timer_stopped_fix _ rfl

theorem timer_countdown_witness :
    0 < 1
    ∧ timer_tick^[59] (timer_start 1) =
        { total_seconds := 60, remaining_seconds := 1, running := true, finished_count := 0 }
    ∧ timer_tick^[60] (timer_start 1) =
        { total_seconds := 60, remaining_seconds := 0, running := false, finished_count := 1 } := by
  refine ⟨by decide, ?_, ?_⟩
  · have h := (timer_countdown 1 (by decide)).1 59 (by decide)
    simpa using h
  · have h := (timer_countdown 1 (by decide)).2.2 0
    simpa using h

/-- C5: add_image rejects a source path whose lower-cased extension is not
in the allow-list, returning no item and leaving both the in-memory list
and the persisted list untouched; on an allowed extension it returns the
created item, whose id is the freshly drawn uid, appends it and persists,
and when the uid is fresh the new id differs from every existing id. -/
theorem add_image_checks_extension (lib : PictureLibrary) (src lbl cat : String)
    (dur : Int) (uid : String) :
    (py_lower (py_suffix (path_name src)) ∉ allowed_exts →
        lib.add_image src lbl cat dur uid = (none, lib))
    ∧ (py_lower (py_suffix (path_name src)) ∈ allowed_exts →
        lib.add_image src lbl cat dur uid =
          (some { id := uid, filename := uid ++ py_lower (py_suffix (path_name src)),
                  label := lbl, category := some cat, duration := some dur },
           { items := lib.items ++
               [{ id := uid, filename := uid ++ py_lower (py_suffix (path_name src)),
                  label := lbl, category := some cat, duration := some dur }],
             saved := lib.items ++
               [{ id := uid, filename := uid ++ py_lower (py_suffix (path_name src)),
                  label := lbl, category := some cat, duration := some dur }] })
        ∧ (uid ∉ lib.items.map LibItemDict.id → ∀ i ∈ lib.items, uid ≠ i.id)) := by
  refine ⟨fun hno => ?_, fun hyes => ⟨?_, fun hf i hi heq => ?_⟩⟩
  · simp [PictureLibrary.add_image, hno]
  · simp [PictureLibrary.add_image, PictureLibrary.save, hyes]
  · exact hf (List.mem_map.mpr ⟨i, hi, heq.symm⟩)

/-- Pre-existing library entry used by the add_image witness. -/
def libItem0 : LibItemDict := ⟨"e1", "e1.png", "old", some "other", some 0⟩

/-- One-entry library used by the add_image witness. -/
def lib1 : PictureLibrary := ⟨[libItem0], [libItem0]⟩

theorem add_image_checks_extension_witness :
    lib1.add_image "photo.gif" "x" "other" 0 "u1" = (none, lib1)
    ∧ lib1.add_image "dir/photo.PNG" "x" "meals" 5 "u1" =
        (some ⟨"u1", "u1.png", "x", some "meals", some 5⟩,
         ⟨[libItem0, ⟨"u1", "u1.png", "x", some "meals", some 5⟩],
          [libItem0, ⟨"u1", "u1.png", "x", some "meals", some 5⟩]⟩)
    ∧ ∀ i ∈ lib1.items, "u1" ≠ i.id := by
  refine ⟨?_, ?_, ?_⟩
  · exact (add_image_checks_extension lib1 "photo.gif" "x" "other" 0 "u1").1 (by decide)
  · have h := ((add_image_checks_extension lib1 "dir/photo.PNG" "x" "meals" 5 "u1").2
      (by decide)).1
    exact h
  · exact ((add_image_checks_extension lib1 "dir/photo.PNG" "x" "meals" 5 "u1").2
      (by decide)).2 (by decide)

/-- C6: converting the scenario library item with id a, label Breakfast,
category meals, duration 20 through from_library_item keeps duration 20 and
category meals, starts not done, back-references the library id, and takes
the freshly generated uid as its own id, distinct from a when the uid is. -/
theorem from_library_item_scenario (uid filename : String) (h : uid ≠ "a") :
    (ScheduleItem.from_library_item uid ⟨"a", filename, "Breakfast", some "meals", some 20⟩).duration = 20
    ∧ (ScheduleItem.from_library_item uid ⟨"a", filename, "Breakfast", some "meals", some 20⟩).category = "meals"
    ∧ (ScheduleItem.from_library_item uid ⟨"a", filename, "Breakfast", some "meals", some 20⟩).done = false
    ∧ (ScheduleItem.from_library_item uid ⟨"a", filename, "Breakfast", some "meals", some 20⟩).library_id = "a"
    ∧ (ScheduleItem.from_library_item uid ⟨"a", filename, "Breakfast", some "meals", some 20⟩).id = uid
    ∧ (ScheduleItem.from_library_item uid ⟨"a", filename, "Breakfast", some "meals", some 20⟩).id ≠ "a" :=
  ⟨rfl, rfl, rfl, rfl, rfl, h⟩

theorem from_library_item_scenario_witness :
    (ScheduleItem.from_library_item "b" ⟨"a", "pic.png", "Breakfast", some "meals", some 20⟩).duration = 20
    ∧ (ScheduleItem.from_library_item "b" ⟨"a", "pic.png", "Breakfast", some "meals", some 20⟩).category = "meals"
    ∧ (ScheduleItem.from_library_item "b" ⟨"a", "pic.png", "Breakfast", some "meals", some 20⟩).done = false
    ∧ (ScheduleItem.from_library_item "b" ⟨"a", "pic.png", "Breakfast", some "meals", some 20⟩).library_id = "a"
    ∧ (ScheduleItem.from_library_item "b" ⟨"a", "pic.png", "Breakfast", some "meals", some 20⟩).id = "b"
    ∧ (ScheduleItem.from_library_item "b" ⟨"a", "pic.png", "Breakfast", some "meals", some 20⟩).id ≠ "a" :=
  from_library_item_scenario "b" "pic.png" (by decide)

/-- C7: a library item whose duration entry is missing or stored as the
falsy integer 0 converts to a 30-minute ScheduleItem, and since the
default duration of add_image is 0, an item imported with that default
always converts to a 30-minute ScheduleItem, never a 0-minute one. -/
theorem from_library_item_duration_fallback (uid : String) (d : LibItemDict)
    (h : d.duration = none ∨ d.duration = some 0) :
    (ScheduleItem.from_library_item uid d).duration = 30
    ∧ add_image_default_duration = 0
    ∧ ∀ (lib lib2 : PictureLibrary) (src lbl cat uid2 : String) (item : LibItemDict),
        lib.add_image src lbl cat add_image_default_duration uid2 = (some item, lib2) →
        (ScheduleItem.from_library_item uid item).duration = 30 := by
  refine ⟨?_, rfl, ?_⟩
  · rcases h with h | h <;> simp [ScheduleItem.from_library_item, h]
  · intro lib lib2 src lbl cat uid2 item hadd
    by_cases hc : py_lower (py_suffix (path_name src)) ∈ allowed_exts
    · rw [((add_image_checks_extension lib src lbl cat add_image_default_duration uid2).2
        hc).1] at hadd
      have hitem : item = ⟨uid2, uid2 ++ py_lower (py_suffix (path_name src)), lbl,
          some cat, some add_image_default_duration⟩ := by
        have := congrArg Prod.fst hadd
        simpa using this.symm
      rw [hitem]
      rfl
    · rw [(add_image_checks_extension lib src lbl cat add_image_default_duration uid2).1
        hc] at hadd
      simp at hadd

theorem from_library_item_duration_fallback_witness :
    (ScheduleItem.from_library_item "b" ⟨"a", "f.png", "x", some "other", none⟩).duration = 30
    ∧ add_image_default_duration = 0
    ∧ ∀ (lib lib2 : PictureLibrary) (src lbl cat uid2 : String) (item : LibItemDict),
        lib.add_image src lbl cat add_image_default_duration uid2 = (some item, lib2) →
        (ScheduleItem.from_library_item "b" item).duration = 30 :=
  from_library_item_duration_fallback "b" ⟨"a", "f.png", "x", some "other", none⟩ (Or.inl rfl)

/-- C8: expanding the built-in Weekend template yields a Schedule named
Weekend with exactly 11 items, all not done, each carrying the label,
time string, duration and category of its descriptor (category falling
back to other when absent) and the freshly generated id for its position. -/
theorem weekend_template_expands (gen : Nat → String) (cached : Int → Bool) (today : String) :
    (template_to_schedule gen cached today weekend_template).name = "Weekend"
    ∧ (template_to_schedule gen cached today weekend_template).items.length = 11
    ∧ (template_to_schedule gen cached today weekend_template).items.map
        (fun i => (i.label, i.time_str, i.duration, i.category, i.done)) =
      weekend_template.items.map
        (fun td => (td.label, td.time_str, td.duration, td.category.getD "other", false))
    ∧ (template_to_schedule gen cached today weekend_template).items.map ScheduleItem.id =
      (List.range 11).map gen :=
  ⟨rfl, rfl, rfl, rfl⟩

/-- C9: PictureLibrary.load turns a missing file, a JSON parse failure and
an I/O error into the empty library, but a UnicodeDecodeError, raised by
json.load when the file bytes are not valid UTF-8, is not among the caught
exception classes and propagates to the caller. -/
theorem library_load_swallows_only_json_and_io :
    library_load none = Except.ok (Json.arr [])
    ∧ library_load (some (Except.error PyExc.jsonDecodeError)) = Except.ok (Json.arr [])
    ∧ library_load (some (Except.error PyExc.ioError)) = Except.ok (Json.arr [])
    ∧ library_load (some (Except.error PyExc.unicodeDecodeError)) =
        Except.error PyExc.unicodeDecodeError :=
  ⟨rfl, rfl, rfl, rfl⟩

/-- C10: the local Swedish pictogram lookup returns at most 60 results;
when the normalized term is a key of the mapping the results are exactly
the ids stored under that key (capped at 60), and only when it is not a
key do the results come from the starts-with fallback collection. -/
theorem search_pictograms_sv_spec (lookup : List (String × List Int)) (keyword : String) :
    (search_pictograms_sv lookup keyword).length ≤ 60
    ∧ (∀ v, lookup_assoc lookup (py_strip (py_lower keyword)) = some v →
        (search_pictograms_sv lookup keyword).map PictoResult.picto_id = v.take 60)
    ∧ (lookup_assoc lookup (py_strip (py_lower keyword)) = none →
        (search_pictograms_sv lookup keyword).map PictoResult.picto_id =
          (collect_prefix_ids (py_strip (py_lower keyword)) lookup []).take 60) := by
  refine ⟨?_, fun v hv => ?_, fun hn => ?_⟩
  · have hlen : ∀ ids : List Int,
        ((ids.take 60).map (fun pid =>
          ({ picto_id := pid, keyword := keyword, locale := "sv" } : PictoResult))).length ≤ 60 := by
      intro ids
      simp [List.length_take]
    simp only [search_pictograms_sv]
    exact hlen _
  · simp only [search_pictograms_sv, hv, List.map_map, List.map_take]
    congr 1
    exact List.map_id v
  · simp only [search_pictograms_sv, hn, List.map_map, List.map_take]
    congr 1
    exact List.map_id (collect_prefix_ids (py_strip (py_lower keyword)) lookup [])

/-- Two-entry Swedish lookup table used by the search witness. -/
def lookup0 : List (String × List Int) := [("kaffe", [1, 2]), ("katt", [3])]

theorem search_pictograms_sv_spec_witness :
    (search_pictograms_sv lookup0 "Kaffe").map PictoResult.picto_id = ([1, 2] : List Int).take 60
    ∧ (search_pictograms_sv lookup0 "ka").map PictoResult.picto_id =
        (collect_prefix_ids (py_strip (py_lower "ka")) lookup0 []).take 60 :=
  ⟨(search_pictograms_sv_spec lookup0 "Kaffe").2.1 [1, 2] (by decide),
   (search_pictograms_sv_spec lookup0 "ka").2.2 (by decide)⟩
